import Mathlib

/-!
Shallow embedding of the contact-form logic of `src/pages/Contact.tsx` and of
the theme hook (`useTheme`).

The contact page keeps three pieces of React state: `formData` (four string
fields), `errors` (a sparse error map, one optional message per field; the
code stores the empty string for "no entry"), and `submission` (a status tag
plus a message).  The handlers `validateField`, `validateForm`,
`handleInputChange` and `handleSubmit` are translated below as pure
functions on an explicit `ContactState`.  The asynchronous parts — the
outstanding `fetch` and the scheduled `setTimeout` — are made explicit as
counters of in-flight requests and of pending (never cancelled) timers, with
`resolveFetch` and `timerFire` modelling the continuation of the fetch and
the firing of one timer.

JavaScript's whitespace class `\s` and the class used by `String.trim` are
both modelled by `Char.isWhitespace`, which agrees with them on all ASCII
inputs; `jsTrim` is an executable model of JavaScript's `trim` (the
built-in `String.trim` is extensionally the same but is defined by
well-founded recursion on byte positions, which blocks kernel evaluation).
-/

/-- JavaScript's `value.trim()`: drop leading and trailing whitespace. -/
def jsTrim (s : String) : String :=
  ⟨((s.toList.dropWhile Char.isWhitespace).reverse.dropWhile Char.isWhitespace).reverse⟩

/-- A character allowed by the character class `[^\s@]` of `emailRegex`. -/
def okChar (c : Char) : Bool := !c.isWhitespace && c != '@'

/-- The test `emailRegex.test(value)` for
`/^[^\s@]+@[^\s@]+\.[^\s@]+$/`: the string must consist of a non-empty run
of non-whitespace non-`@` characters, one `@`, and a domain of
non-whitespace non-`@` characters containing a dot that is neither its
first nor its last character (the class `[^\s@]` itself admits dots, so the
parts around the mandatory dot may contain further dots). -/
def emailMatchL (cs : List Char) : Bool :=
  match cs.dropWhile (fun c => c != '@') with
  | [] => false
  | _ :: dpart =>
    !(cs.takeWhile (fun c => c != '@')).isEmpty &&
      (cs.takeWhile (fun c => c != '@')).all okChar &&
      dpart.all okChar && ((dpart.drop 1).dropLast.contains '.')

/-- The test on a string: run the matcher on its characters. -/
def emailMatch (s : String) : Bool := emailMatchL s.toList

namespace Contact

/-- The four form fields, in the insertion order of the `formData` object
literal (the order `Object.keys` iterates them in `validateForm`). -/
inductive Field where
  | name
  | email
  | subject
  | message
deriving DecidableEq, Repr

/-- The key list `Object.keys(formData)` iterated by `validateForm`. -/
def Field.all : List Field := [.name, .email, .subject, .message]

/-- The `FormData` record: four string fields. -/
structure FormData where
  name : String
  email : String
  subject : String
  message : String
deriving DecidableEq, Repr

/-- Read one field of `FormData` (the code's `formData[field]`). -/
def FormData.field (fd : FormData) : Field → String
  | .name => fd.name
  | .email => fd.email
  | .subject => fd.subject
  | .message => fd.message

/-- Update one field of `FormData` (the code's spread update). -/
def FormData.setField (fd : FormData) : Field → String → FormData
  | .name, v => { fd with name := v }
  | .email, v => { fd with email := v }
  | .subject, v => { fd with subject := v }
  | .message, v => { fd with message := v }

/-- The `FormErrors` map.  The TypeScript type has one optional string per
field; the code writes the empty string to mean "no entry", and the UI tests
truthiness (`!!errors[name]`), so absence of an entry is modelled by `""`. -/
structure FormErrors where
  name : String
  email : String
  subject : String
  message : String
deriving DecidableEq, Repr

/-- Read one entry of the error map (the code's `errors[field]`). -/
def FormErrors.field (e : FormErrors) : Field → String
  | .name => e.name
  | .email => e.email
  | .subject => e.subject
  | .message => e.message

/-- Update one entry of the error map (the code's spread update or
`newErrors[field] = error`). -/
def FormErrors.setField (e : FormErrors) : Field → String → FormErrors
  | .name, v => { e with name := v }
  | .email, v => { e with email := v }
  | .subject, v => { e with subject := v }
  | .message, v => { e with message := v }

/-- The empty error map `{}`. -/
def emptyErrors : FormErrors := ⟨"", "", "", ""⟩

/-- The initial (and post-success) form data: all fields empty strings. -/
def emptyFormData : FormData := ⟨"", "", "", ""⟩

/-- The submission status union `"idle" | "loading" | "success" | "error"`. -/
inductive Status where
  | idle
  | loading
  | success
  | error
deriving DecidableEq, Repr

/-- `SubmissionState`: a status tag plus a message. -/
structure SubmissionState where
  status : Status
  message : String
deriving DecidableEq, Repr

/-- `validateField`: maps a field and its raw value to an error message,
with `""` meaning the value passes.  First failing rule wins: required
(empty after trim), then the per-field minimum length on the trimmed value
(name 2, subject 3, message 10), while `email` instead tests `emailRegex`
on the raw, untrimmed value. -/
def validateField (f : Field) (value : String) : String :=
  match f with
  | .name =>
    if jsTrim value = "" then "Name is required"
    else if (jsTrim value).length < 2 then "Name must be at least 2 characters"
    else ""
  | .email =>
    if jsTrim value = "" then "Email is required"
    else if emailMatch value = false then "Please enter a valid email address"
    else ""
  | .subject =>
    if jsTrim value = "" then "Subject is required"
    else if (jsTrim value).length < 3 then "Subject must be at least 3 characters"
    else ""
  | .message =>
    if jsTrim value = "" then "Message is required"
    else if (jsTrim value).length < 10 then "Message must be at least 10 characters"
    else ""

/-- `validateForm`: runs `validateField` over the four fields in key order,
collecting non-empty messages into a fresh error map (`newErrors`, started
from `{}`) and a validity flag (`isValid`, started `true` and cleared by any
failing field).  Returns the pair the code installs with `setErrors` and
returns as its boolean. -/
def validateForm (fd : FormData) : FormErrors × Bool :=
  Field.all.foldl
    (fun acc f =>
      let err := validateField f (fd.field f)
      if err ≠ "" then (acc.1.setField f err, false) else acc)
    (emptyErrors, true)

/-- The whole component state, with the asynchronous context made explicit:
`inFlight` counts outstanding `fetch` calls and `pendingTimers` counts
scheduled, not-yet-fired `setTimeout` callbacks (the code never cancels
them). -/
structure ContactState where
  formData : FormData
  errors : FormErrors
  submission : SubmissionState
  inFlight : Nat
  pendingTimers : Nat
deriving DecidableEq, Repr

/-- The initial state of the component: empty form, empty error map,
idle submission, nothing outstanding. -/
def initState : ContactState :=
  { formData := emptyFormData
    errors := emptyErrors
    submission := ⟨.idle, ""⟩
    inFlight := 0
    pendingTimers := 0 }

/-- `handleInputChange` for field `f` and new value `v`: writes the field
into `formData`; clears this field's error entry if one is present
(`if (errors[field])`); and resets the submission state to idle if it is
not idle.  Pending timers are not touched (the code never clears the
timeout). -/
def handleInputChange (s : ContactState) (f : Field) (v : String) : ContactState :=
  { s with
    formData := s.formData.setField f v
    errors := if s.errors.field f ≠ "" then s.errors.setField f "" else s.errors
    submission := if s.submission.status ≠ .idle then ⟨.idle, ""⟩ else s.submission }

/-- The synchronous prefix of `handleSubmit`: run `validateForm` (which
installs the fresh error map in both cases); if invalid, return without a
transition; if valid, enter the loading state and start the `fetch`
(modelled by incrementing `inFlight`). -/
def handleSubmit (s : ContactState) : ContactState :=
  let res := validateForm s.formData
  if res.2 = false then { s with errors := res.1 }
  else
    { s with
      errors := res.1
      submission := ⟨.loading, ""⟩
      inFlight := s.inFlight + 1 }

/-- The user-level submit action: the form's only submit button carries
`disabled={submission.status === "loading"}`, and a disabled submit button
neither fires click events nor serves implicit (Enter-key) submission, so
`handleSubmit` runs only when the status is not `loading`. -/
def clickSubmit (s : ContactState) : ContactState :=
  if s.submission.status = .loading then s else handleSubmit s

/-- The success/auto-hide message set by `handleSubmit`. -/
def successMessage : String :=
  "Thank you! Your message has been sent successfully. I'll get back to you soon."

/-- The continuation of the `fetch` in `handleSubmit`, for outcome `ok`
(an OK-class response) or not (a non-OK response, which the code turns into
a thrown error, or a network error).  The `response.ok` branch sets
success, clears the form and the error map, and schedules the 5-second
auto-hide timeout; the `catch` branch — reached by every failure — does
exactly the same ("simulate successful submission"; the real error handling
is commented out in the source). -/
def resolveFetch (s : ContactState) (ok : Bool) : ContactState :=
  if s.inFlight = 0 then s
  else if ok then
    { formData := emptyFormData
      errors := emptyErrors
      submission := ⟨.success, successMessage⟩
      inFlight := s.inFlight - 1
      pendingTimers := s.pendingTimers + 1 }
  else
    { formData := emptyFormData
      errors := emptyErrors
      submission := ⟨.success, successMessage⟩
      inFlight := s.inFlight - 1
      pendingTimers := s.pendingTimers + 1 }

/-- One scheduled `setTimeout` callback firing: it unconditionally sets the
submission state to idle with an empty message.  The code keeps no handle to
the timer, so firing is possible whenever one is pending, regardless of any
interaction since it was scheduled. -/
def timerFire (s : ContactState) : ContactState :=
  if s.pendingTimers = 0 then s
  else
    { s with
      submission := ⟨.idle, ""⟩
      pendingTimers := s.pendingTimers - 1 }

/-- The states the component can reach from its initial state through its
event handlers, fetch resolutions and timer firings. -/
inductive Reachable : ContactState → Prop where
  | init : Reachable initState
  | edit (s : ContactState) (f : Field) (v : String) :
      Reachable s → Reachable (handleInputChange s f v)
  | submit (s : ContactState) : Reachable s → Reachable (clickSubmit s)
  | resolve (s : ContactState) (ok : Bool) :
      Reachable s → Reachable (resolveFetch s ok)
  | timeout (s : ContactState) : Reachable s → Reachable (timerFire s)

/-! Concrete states used to evaluate the model. -/

/-- A form filling that passes every validation rule. -/
def fdValid : FormData := ⟨"Jo", "a@b.co", "Hey", "Hello there ok"⟩

/-- A state in the middle of a submission of `fdValid`: the fetch is
outstanding and the status shows loading. -/
def loadingState : ContactState :=
  { formData := fdValid
    errors := emptyErrors
    submission := ⟨.loading, ""⟩
    inFlight := 1
    pendingTimers := 0 }

/-- Typing a valid value into each of the four fields in turn. -/
def fillForm (s : ContactState) : ContactState :=
  handleInputChange (handleInputChange (handleInputChange
    (handleInputChange s .name "Jo") .email "a@b.co") .subject "Hey") .message "Hello there ok"

/-- Filling the form, submitting it, and the fetch resolving: the first
success display, with its auto-hide timer pending. -/
def afterFirstSuccess : ContactState := resolveFetch (clickSubmit (fillForm initState)) true

/-- The user resumes typing during the 5-second window: the success display
is cleared, but the pending timer is not cancelled. -/
def afterEdit : ContactState := handleInputChange afterFirstSuccess .name "Jo"

/-- The user fills and submits again within the window; the second
submission succeeds while the first timer is still pending. -/
def afterSecondSuccess : ContactState := resolveFetch (clickSubmit (fillForm afterEdit)) true

/-- An idle state with one stale auto-hide timer pending. -/
def idleWithTimer : ContactState :=
  { formData := emptyFormData
    errors := emptyErrors
    submission := ⟨.idle, ""⟩
    inFlight := 0
    pendingTimers := 1 }

end Contact

/-! ### Theme hook (`useTheme`) -/

/-- The observable state of the theme hook: the React flag `isDarkMode`
(initially `true`), the `localStorage` entry under `"theme-preference"`,
and the two class-list markers on `document.documentElement`. -/
structure ThemeState where
  isDarkMode : Bool
  storage : Option String
  domDark : Bool
  domLight : Bool
deriving DecidableEq, Repr

/-- `applyThemeToDOM`: adds one of the `dark`/`light` classes to the
document root and removes the other. -/
def applyThemeToDOM (s : ThemeState) (isDark : Bool) : ThemeState :=
  if isDark then { s with domDark := true, domLight := false }
  else { s with domLight := true, domDark := false }

/-- The mount effect of `useTheme`: read `"theme-preference"`; if a value is
saved, mirror it into the flag and the DOM (dark iff the saved string is
`"dark"`) without writing storage; otherwise set dark mode, apply it, and
persist the default `"dark"`. -/
def initializeTheme (s : ThemeState) : ThemeState :=
  match s.storage with
  | some savedTheme =>
    applyThemeToDOM { s with isDarkMode := savedTheme == "dark" } (savedTheme == "dark")
  | none =>
    let s1 := applyThemeToDOM { s with isDarkMode := true } true
    { s1 with storage := some "dark" }

/-! ### Helper lemmas -/

namespace Contact

theorem FormErrors.errField_setField_self (e : FormErrors) (f : Field) (v : String) :
    (e.setField f v).field f = v := by
  cases f <;> rfl

theorem FormErrors.errField_setField_ne (e : FormErrors) (f g : Field) (v : String)
    (h : g ≠ f) : (e.setField f v).field g = e.field g := by
  cases f <;> cases g <;> first | rfl | exact absurd rfl h

theorem FormData.fdField_setField_self (fd : FormData) (f : Field) (v : String) :
    (fd.setField f v).field f = v := by
  cases f <;> rfl

theorem FormData.fdField_setField_ne (fd : FormData) (f g : Field) (v : String)
    (h : g ≠ f) : (fd.setField f v).field g = fd.field g := by
  cases f <;> cases g <;> first | rfl | exact absurd rfl h

theorem emptyErrors_field (f : Field) : emptyErrors.field f = "" := by
  cases f <;> rfl

/-- Closed form of the `validateForm` fold: the installed map holds exactly
the per-field results of `validateField` (with `""` for a passing field,
which is also what an untouched entry of `newErrors` holds), and the
returned boolean is the conjunction of the four per-field checks. -/
theorem validateForm_eq (fd : FormData) :
    validateForm fd =
      (⟨validateField .name fd.name, validateField .email fd.email,
        validateField .subject fd.subject, validateField .message fd.message⟩,
       (validateField .name fd.name == "" && validateField .email fd.email == "" &&
        validateField .subject fd.subject == "" && validateField .message fd.message == "")) := by
  by_cases h1 : validateField .name fd.name = "" <;>
  by_cases h2 : validateField .email fd.email = "" <;>
  by_cases h3 : validateField .subject fd.subject = "" <;>
  by_cases h4 : validateField .message fd.message = "" <;>
    simp [validateForm, Field.all, FormData.field, FormErrors.setField, emptyErrors,
      h1, h2, h3, h4]

theorem validateForm_field (fd : FormData) (f : Field) :
    (validateForm fd).1.field f = validateField f (fd.field f) := by
  cases f <;> simp [validateForm_eq, FormErrors.field, FormData.field]

theorem validateForm_valid_iff (fd : FormData) :
    (validateForm fd).2 = true ↔ ∀ f, validateField f (fd.field f) = "" := by
  rw [validateForm_eq]
  constructor
  · intro h f
    simp only [Bool.and_eq_true, beq_iff_eq] at h
    cases f <;> simp [FormData.field] <;> tauto
  · intro h
    have h1 := h .name
    have h2 := h .email
    have h3 := h .subject
    have h4 := h .message
    simp [FormData.field] at h1 h2 h3 h4
    simp [h1, h2, h3, h4]

theorem validateForm_errors_empty_iff (fd : FormData) :
    (validateForm fd).1 = emptyErrors ↔ (validateForm fd).2 = true := by
  rw [validateForm_eq]
  constructor
  · intro h
    have := congrArg FormErrors.name h
    have := congrArg FormErrors.email h
    have := congrArg FormErrors.subject h
    have := congrArg FormErrors.message h
    simp_all [emptyErrors]
  · intro h
    simp only [Bool.and_eq_true, beq_iff_eq] at h
    obtain ⟨⟨⟨e1, e2⟩, e3⟩, e4⟩ := h
    simp [emptyErrors, e1, e2, e3, e4]

theorem handleInputChange_errors_self (s : ContactState) (f : Field) (v : String) :
    (handleInputChange s f v).errors.field f = "" := by
  by_cases h : s.errors.field f = ""
  · simp [handleInputChange, h]
  · simp [handleInputChange, h, FormErrors.errField_setField_self]

theorem handleInputChange_errors_ne (s : ContactState) (f g : Field) (v : String)
    (h : g ≠ f) : (handleInputChange s f v).errors.field g = s.errors.field g := by
  by_cases h0 : s.errors.field f = ""
  · simp [handleInputChange, h0]
  · simp [handleInputChange, h0, FormErrors.errField_setField_ne _ _ _ _ h]

theorem handleInputChange_formData_ne (s : ContactState) (f g : Field) (v : String)
    (h : g ≠ f) : (handleInputChange s f v).formData.field g = s.formData.field g := by
  simp [handleInputChange, FormData.fdField_setField_ne _ _ _ _ h]

theorem handleSubmit_errors (s : ContactState) :
    (handleSubmit s).errors = (validateForm s.formData).1 := by
  unfold handleSubmit
  by_cases h : (validateForm s.formData).2 = false <;> simp [h]

theorem handleSubmit_formData (s : ContactState) :
    (handleSubmit s).formData = s.formData := by
  unfold handleSubmit
  by_cases h : (validateForm s.formData).2 = false <;> simp [h]

end Contact

/-- If `dropWhile p` returns a cons, its head fails the predicate. -/
theorem dropWhile_head_false {α : Type} (p : α → Bool) :
    ∀ (l : List α) (hd : α) (tl : List α), l.dropWhile p = hd :: tl → p hd = false := by
  intro l
  induction l with
  | nil => intro hd tl h; simp at h
  | cons a as ih =>
    intro hd tl h
    rw [List.dropWhile_cons] at h
    by_cases hp : p a = true
    · simp [hp] at h
      exact ih hd tl h
    · simp [hp] at h
      obtain ⟨rfl, -⟩ := h
      simpa using hp

/-- A whitespace character anywhere in the character list defeats
`emailRegex`: every character class of the pattern excludes `\s`. -/
theorem emailMatchL_false_of_whitespace (cs : List Char) (c : Char)
    (hc : c ∈ cs) (hw : c.isWhitespace = true) : emailMatchL cs = false := by
  have hok : okChar c = false := by simp [okChar, hw]
  cases h : cs.dropWhile (fun c => c != '@') with
  | nil => simp [emailMatchL, h]
  | cons hd tl =>
    have hsplit : cs.takeWhile (fun c => c != '@') ++ hd :: tl = cs := by
      rw [← h]
      exact List.takeWhile_append_dropWhile _ _
    have hmem : c ∈ cs.takeWhile (fun c => c != '@') ∨ c ∈ hd :: tl := by
      rw [← hsplit] at hc
      exact List.mem_append.1 hc
    have hhd : hd = '@' := by
      have := dropWhile_head_false (fun c => c != '@') cs hd tl h
      simpa using this
    refine Bool.eq_false_iff.mpr fun htrue => ?_
    simp only [emailMatchL, h, Bool.and_eq_true, List.all_eq_true] at htrue
    rcases hmem with hmem | hmem
    · have := htrue.1.1.2 c hmem
      simp [hok] at this
    · rcases List.mem_cons.1 hmem with rfl | hmem
      · rw [hhd] at hw
        simp at hw
      · have := htrue.1.2 c hmem
        simp [hok] at this

/-- A whitespace character anywhere in the string defeats `emailRegex`. -/
theorem emailMatch_false_of_whitespace (v : String) (c : Char)
    (hc : c ∈ v.toList) (hw : c.isWhitespace = true) : emailMatch v = false :=
  emailMatchL_false_of_whitespace v.toList c hc hw

/-! ### Claim theorems -/

namespace Contact

/-- C1 (evaluation at the failing input): from a loading state holding the
user's valid form data, a failed network call is coerced by the `catch`
branch of `handleSubmit` into the success state with the generic success
message, and the form contents are wiped.  The failure is reclassified as a
success, contradicting the claimed transition to an error state carrying the
failure reason with the form left intact. -/
theorem failure_coerced_to_success :
    loadingState.submission.status = .loading ∧
    (resolveFetch loadingState false).submission.status = .success ∧
    (resolveFetch loadingState false).submission.message = successMessage ∧
    (resolveFetch loadingState false).formData = emptyFormData ∧
    loadingState.formData ≠ emptyFormData := by
  decide

/-- C2: `validateForm` returns true iff all four fields pass
`validateField`; the map it installs holds exactly the per-field results
(the entry of a failing field is its message, a passing field keeps the
empty entry), hence the map is empty iff the form is valid; and the submit
handler installs this map as a whole, computed from the form data alone,
regardless of the previous error map. -/
theorem validateForm_spec :
    (∀ fd : FormData,
      ((validateForm fd).2 = true ↔ ∀ f, validateField f (fd.field f) = "") ∧
      (∀ f, (validateForm fd).1.field f = validateField f (fd.field f)) ∧
      ((validateForm fd).1 = emptyErrors ↔ (validateForm fd).2 = true)) ∧
    (∀ s : ContactState, s.submission.status ≠ .loading →
      (clickSubmit s).errors = (validateForm s.formData).1) := by
  constructor
  · intro fd
    exact ⟨validateForm_valid_iff fd, validateForm_field fd, validateForm_errors_empty_iff fd⟩
  · intro s hs
    simp [clickSubmit, hs, handleSubmit_errors]

theorem validateForm_spec_witness :
    (clickSubmit initState).errors = (validateForm initState.formData).1 :=
  validateForm_spec.2 initState (by decide)

/-- C3: `validateField` implements the rules table with first-failing-rule
ordering: a value that trims to empty yields the field's required message;
otherwise name, subject and message compare their trimmed length against
2, 3 and 10; otherwise email applies the `emailRegex` format test (on the
raw value), and `a@b.co` passes. -/
theorem validateField_rules :
    (∀ v : String, jsTrim v = "" →
      validateField .name v = "Name is required" ∧
      validateField .email v = "Email is required" ∧
      validateField .subject v = "Subject is required" ∧
      validateField .message v = "Message is required") ∧
    (∀ v : String, jsTrim v ≠ "" →
      validateField .name v =
        (if (jsTrim v).length < 2 then "Name must be at least 2 characters" else "") ∧
      validateField .subject v =
        (if (jsTrim v).length < 3 then "Subject must be at least 3 characters" else "") ∧
      validateField .message v =
        (if (jsTrim v).length < 10 then "Message must be at least 10 characters" else "") ∧
      validateField .email v =
        (if emailMatch v = true then "" else "Please enter a valid email address")) ∧
    validateField .email "a@b.co" = "" := by
  refine ⟨?_, ?_, by decide⟩
  · intro v h
    exact ⟨by simp [validateField, h], by simp [validateField, h],
      by simp [validateField, h], by simp [validateField, h]⟩
  · intro v h
    refine ⟨by simp [validateField, h], by simp [validateField, h],
      by simp [validateField, h], ?_⟩
    cases he : emailMatch v <;> simp [validateField, h, he]

theorem validateField_rules_witness :
    (validateField .name "" = "Name is required" ∧
     validateField .email "" = "Email is required" ∧
     validateField .subject "" = "Subject is required" ∧
     validateField .message "" = "Message is required") ∧
    (validateField .name "a" =
       (if (jsTrim "a").length < 2 then "Name must be at least 2 characters" else "") ∧
     validateField .subject "a" =
       (if (jsTrim "a").length < 3 then "Subject must be at least 3 characters" else "") ∧
     validateField .message "a" =
       (if (jsTrim "a").length < 10 then "Message must be at least 10 characters" else "") ∧
     validateField .email "a" =
       (if emailMatch "a" = true then "" else "Please enter a valid email address")) :=
  ⟨validateField_rules.1 "" (by decide), validateField_rules.2.1 "a" (by decide)⟩

/-- C4: in every reachable state, the error map carries an entry (a
non-empty message) for a field only when that field's current form value
fails `validateField`: no stale error survives a correction. -/
theorem errors_never_stale :
    ∀ s : ContactState, Reachable s → ∀ f : Field,
      s.errors.field f ≠ "" → validateField f (s.formData.field f) ≠ "" := by
  intro s hs
  induction hs with
  | init =>
    intro f hf
    exact absurd (by cases f <;> rfl) hf
  | edit s f v _ ih =>
    intro g hg
    by_cases hgf : g = f
    · subst hgf
      exact absurd (handleInputChange_errors_self s g v) hg
    · rw [handleInputChange_errors_ne s f g v hgf] at hg
      rw [handleInputChange_formData_ne s f g v hgf]
      exact ih g hg
  | submit s _ ih =>
    intro g hg
    by_cases hl : s.submission.status = .loading
    · have hid : clickSubmit s = s := by simp [clickSubmit, hl]
      rw [hid] at hg ⊢
      exact ih g hg
    · have hcs : clickSubmit s = handleSubmit s := by simp [clickSubmit, hl]
      rw [hcs] at hg ⊢
      rw [handleSubmit_errors, validateForm_field] at hg
      rw [handleSubmit_formData]
      exact hg
  | resolve s ok _ ih =>
    intro g hg
    by_cases h0 : s.inFlight = 0
    · have hid : resolveFetch s ok = s := by simp [resolveFetch, h0]
      rw [hid] at hg ⊢
      exact ih g hg
    · have he : (resolveFetch s ok).errors = emptyErrors := by
        cases ok <;> simp [resolveFetch, h0]
      rw [he] at hg
      exact absurd (emptyErrors_field g) hg
  | timeout s _ ih =>
    intro g hg
    by_cases h0 : s.pendingTimers = 0
    · have hid : timerFire s = s := by simp [timerFire, h0]
      rw [hid] at hg ⊢
      exact ih g hg
    · have he : (timerFire s).errors = s.errors := by simp [timerFire, h0]
      have hf : (timerFire s).formData = s.formData := by simp [timerFire, h0]
      rw [he] at hg
      rw [hf]
      exact ih g hg

theorem errors_never_stale_witness :
    validateField .name ((clickSubmit initState).formData.field .name) ≠ "" :=
  errors_never_stale (clickSubmit initState) (Reachable.submit _ Reachable.init) .name
    (by decide)

/-- C5 (counterexample): the auto-hide timer is never cancelled.  After the
first success the user resumes typing (which clears the display but leaves
the timer pending), refills the form and completes a second submission
within the window; the stale timer then fires and resets the fresh success
display to idle.  So a delayed firing can reset state after the user has
resumed interacting; the final state is reachable by construction. -/
theorem staleTimer_resets_fresh_success :
    afterEdit.pendingTimers = 1 ∧
    afterEdit.submission.status = .idle ∧
    afterSecondSuccess.submission.status = .success ∧
    afterSecondSuccess.pendingTimers = 2 ∧
    (timerFire afterSecondSuccess).submission.status = .idle ∧
    Reachable (timerFire afterSecondSuccess) := by
  refine ⟨by decide, by decide, by decide, by decide, by decide, ?_⟩
  exact Reachable.timeout _
    (Reachable.resolve _ true
      (Reachable.submit _
        (Reachable.edit _ .message "Hello there ok"
          (Reachable.edit _ .subject "Hey"
            (Reachable.edit _ .email "a@b.co"
              (Reachable.edit _ .name "Jo"
                (Reachable.edit _ .name "Jo"
                  (Reachable.resolve _ true
                    (Reachable.submit _
                      (Reachable.edit _ .message "Hello there ok"
                        (Reachable.edit _ .subject "Hey"
                          (Reachable.edit _ .email "a@b.co"
                            (Reachable.edit _ .name "Jo"
                              Reachable.init)))))))))))))

/-- C5 (amended): after a success the code schedules a one-shot 5-second
timer whose firing unconditionally resets the submission state to idle with
an empty message.  Editing a field does not cancel a pending timer; instead
the edit itself resets the status to idle, so a firing that arrives while
the submission state is still the idle/empty one it would produce leaves
that state unchanged — but a stale timer can reset the display of a later
submission completed within its window. -/
theorem timerFire_spec :
    ∀ s : ContactState,
      (s.pendingTimers ≠ 0 → (timerFire s).submission = ⟨.idle, ""⟩) ∧
      (s.submission = ⟨.idle, ""⟩ → (timerFire s).submission = s.submission) ∧
      (∀ (f : Field) (v : String),
        (handleInputChange s f v).pendingTimers = s.pendingTimers ∧
        (handleInputChange s f v).submission.status = .idle) := by
  intro s
  refine ⟨?_, ?_, ?_⟩
  · intro h
    simp [timerFire, h]
  · intro h
    by_cases h0 : s.pendingTimers = 0 <;> simp [timerFire, h0, h]
  · intro f v
    refine ⟨rfl, ?_⟩
    by_cases h : s.submission.status = .idle <;> simp [handleInputChange, h]

theorem timerFire_spec_witness :
    (timerFire idleWithTimer).submission = ⟨.idle, ""⟩ ∧
    (timerFire idleWithTimer).submission = idleWithTimer.submission :=
  ⟨(timerFire_spec idleWithTimer).1 (by decide),
   (timerFire_spec idleWithTimer).2.1 (by decide)⟩

/-- C6: while a submission is outstanding the status is loading and the
form's submit button is disabled, so the submit action in a loading state
leaves the state unchanged and issues no request. -/
theorem clickSubmit_loading_noop :
    ∀ s : ContactState, s.submission.status = .loading → clickSubmit s = s := by
  intro s h
  simp [clickSubmit, h]

theorem clickSubmit_loading_noop_witness : clickSubmit loadingState = loadingState :=
  clickSubmit_loading_noop loadingState (by decide)

/-- C7: editing a field clears exactly that field's error entry, leaves
every other entry unchanged, resets a non-idle submission state to idle
with an empty message (an idle one is untouched), and does so independently
of the auto-hide timers, which it never changes. -/
theorem handleInputChange_frame :
    ∀ (s : ContactState) (f : Field) (v : String),
      (handleInputChange s f v).errors.field f = "" ∧
      (∀ g, g ≠ f → (handleInputChange s f v).errors.field g = s.errors.field g) ∧
      (s.submission.status ≠ .idle → (handleInputChange s f v).submission = ⟨.idle, ""⟩) ∧
      (s.submission.status = .idle → (handleInputChange s f v).submission = s.submission) ∧
      (handleInputChange s f v).pendingTimers = s.pendingTimers := by
  intro s f v
  refine ⟨handleInputChange_errors_self s f v,
    fun g hg => handleInputChange_errors_ne s f g v hg, ?_, ?_, rfl⟩
  · intro h
    simp [handleInputChange, h]
  · intro h
    simp [handleInputChange, h]

theorem handleInputChange_frame_witness :
    (handleInputChange afterFirstSuccess .name "x").errors.field .email =
        afterFirstSuccess.errors.field .email ∧
    (handleInputChange afterFirstSuccess .name "x").submission = ⟨.idle, ""⟩ ∧
    (handleInputChange initState .name "x").submission = initState.submission :=
  ⟨(handleInputChange_frame afterFirstSuccess .name "x").2.1 .email (by decide),
   (handleInputChange_frame afterFirstSuccess .name "x").2.2.1 (by decide),
   (handleInputChange_frame initState .name "x").2.2.2.1 (by decide)⟩

/-- C8: when the fetch of a pending submission resolves with an OK
response, the form data is reset to all-empty strings, the error map is
cleared, and the submission state becomes success carrying the success
message. -/
theorem resolveFetch_ok_spec :
    ∀ s : ContactState, s.submission.status = .loading → s.inFlight ≠ 0 →
      (resolveFetch s true).formData = emptyFormData ∧
      (resolveFetch s true).errors = emptyErrors ∧
      (resolveFetch s true).submission = ⟨.success, successMessage⟩ := by
  intro s _ h
  simp [resolveFetch, h]

theorem resolveFetch_ok_spec_witness :
    (resolveFetch loadingState true).formData = emptyFormData ∧
    (resolveFetch loadingState true).errors = emptyErrors ∧
    (resolveFetch loadingState true).submission = ⟨.success, successMessage⟩ :=
  resolveFetch_ok_spec loadingState (by decide) (by decide)

/-- C10: the email format test runs on the raw, untrimmed value: any value
that does not trim to empty but contains a whitespace character fails
`emailRegex` and yields the format error — including a valid address
surrounded by spaces, whose trimmed form would match. -/
theorem email_raw_whitespace_error :
    (∀ v : String, jsTrim v ≠ "" → v.toList.any Char.isWhitespace = true →
      validateField .email v = "Please enter a valid email address") ∧
    validateField .email " a@b.co " = "Please enter a valid email address" ∧
    emailMatch (jsTrim " a@b.co ") = true := by
  refine ⟨?_, by decide, by decide⟩
  intro v h hany
  obtain ⟨c, hc, hw⟩ := List.any_eq_true.1 hany
  have hm := emailMatch_false_of_whitespace v c hc hw
  simp [validateField, h, hm]

theorem email_raw_whitespace_error_witness :
    validateField .email " a@b.co " = "Please enter a valid email address" :=
  email_raw_whitespace_error.1 " a@b.co " (by decide) (by decide)

end Contact

/-- C9: initialising the theme with no persisted preference sets the dark
flag, persists the literal string dark, and applies the dark marker (and
removes the light one); with a persisted preference it mirrors that value
(dark iff the stored string is dark) into the flag and the markers without
rewriting storage. -/
theorem initializeTheme_spec :
    ∀ s : ThemeState,
      (s.storage = none →
        initializeTheme s =
          { isDarkMode := true, storage := some "dark", domDark := true, domLight := false }) ∧
      (∀ v, s.storage = some v →
        (initializeTheme s).storage = s.storage ∧
        (initializeTheme s).isDarkMode = (v == "dark") ∧
        (initializeTheme s).domDark = (v == "dark") ∧
        (initializeTheme s).domLight = !(v == "dark")) := by
  intro s
  constructor
  · intro h
    simp [initializeTheme, h, applyThemeToDOM]
  · intro v h
    cases hd : (v == "dark") <;> simp [initializeTheme, h, applyThemeToDOM, hd]

theorem initializeTheme_spec_witness :
    initializeTheme ⟨false, none, false, true⟩ =
      { isDarkMode := true, storage := some "dark", domDark := true, domLight := false } ∧
    (initializeTheme ⟨true, some "light", true, false⟩).storage =
      (⟨true, some "light", true, false⟩ : ThemeState).storage ∧
    (initializeTheme ⟨true, some "light", true, false⟩).isDarkMode = ("light" == "dark") ∧
    (initializeTheme ⟨true, some "light", true, false⟩).domDark = ("light" == "dark") ∧
    (initializeTheme ⟨true, some "light", true, false⟩).domLight = !("light" == "dark") := by
  refine ⟨(initializeTheme_spec ⟨false, none, false, true⟩).1 rfl, ?_⟩
  have h := (initializeTheme_spec ⟨true, some "light", true, false⟩).2 "light" rfl
  exact ⟨h.1, h.2.1, h.2.2.1, h.2.2.2⟩

/-- Sanity checks on the embedded `emailRegex` semantics: the boundary
cases the pattern distinguishes. -/
theorem emailMatch_boundary_cases :
    emailMatch "a@b.co" = true ∧ emailMatch "a@b.c" = true ∧
    emailMatch " a@b.co " = false ∧ emailMatch "a@b." = false ∧
    emailMatch "a@.b" = false ∧ emailMatch "@b.co" = false ∧
    emailMatch "a@b@c.d" = false ∧ emailMatch "a@bc" = false := by
  decide
